import Mathlib

/-!
Shallow embedding of the RAG retrieval-and-session pipeline of the
`ai-news-chatbot-backend` repository (`src/services.js`, `src/config.js`).

External services (Jina embedding provider, Qdrant vector index, Gemini
language model, Redis session store) are modelled as explicit oracle
records: each remote call is a field holding the outcome that call would
produce (`Except Err _`).  A JavaScript `throw` inside a `try` block is
modelled as an `Except.error` value that the enclosing function either
maps over (the `catch`-rethrow pattern) or replaces (the `catch`-recover
pattern), exactly following the source.  Numeric scores are modelled as
rationals; session histories are stored as typed turn lists (the JSON
serialization round-trip of the store is the identity on this model).
-/

abbrev Err := String

abbrev Vec := List ℚ

namespace CONFIG

/-- Mirrors `CONFIG.SESSION_TTL` in `src/config.js`. -/
def SESSION_TTL : Nat := 3600

/-- Mirrors `CONFIG.TOP_K_RESULTS` in `src/config.js`. -/
def TOP_K_RESULTS : Nat := 20

/-- Mirrors `CONFIG.BATCH_SIZE` in `src/config.js`. -/
def BATCH_SIZE : Nat := 10

/-- Mirrors `CONFIG.VECTOR_SIZE` in `src/config.js`. -/
def VECTOR_SIZE : Nat := 768

end CONFIG

/-! ### Embedding client with deterministic local fallback -/

/-- Character class of the JavaScript regex `\w`: `[A-Za-z0-9_]`. -/
def isWordChar (c : Char) : Bool :=
  (('a' ≤ c && c ≤ 'z') || ('A' ≤ c && c ≤ 'Z') || ('0' ≤ c && c ≤ '9') || c = '_')

/-- Worker for `tokenize`: scans the character list accumulating the current
run of word characters (in reverse), emitting each maximal run. -/
def tokenizeAux : List Char → List Char → List (List Char)
  | [], acc => if acc.isEmpty then [] else [acc.reverse]
  | c :: cs, acc =>
    if isWordChar c then tokenizeAux cs (c :: acc)
    else if acc.isEmpty then tokenizeAux cs []
    else acc.reverse :: tokenizeAux cs []

/-- Models `text.match(/\b\w+\b/g) || []`: with a greedy `\w+` between word
boundaries, the global match returns exactly the maximal nonempty runs of
word characters, in order. -/
def tokenize (cs : List Char) : List (List Char) :=
  tokenizeAux cs []

/-- Tokens of `text.toLowerCase().match(/\b\w+\b/g) || []` as strings. -/
def wordTokens (text : String) : List String :=
  (tokenize text.toLower.data).map (fun cs => String.mk cs)

/-- Models `wordFreq[word] = (wordFreq[word] || 0) + 1` on an association
list keyed by `word`: increments in place if present, otherwise appends a
fresh key at the end (JavaScript object insertion order). -/
def bump : List (String × ℚ) → String → List (String × ℚ)
  | [], w => [(w, 1)]
  | (k, v) :: rest, w =>
    if k = w then (k, v + 1) :: rest else (k, v) :: bump rest w

/-- Models the `words.forEach` loop of `createSimpleEmbedding`: counts the
frequency of each token of length `> 2`, in first-seen key order. -/
def wordFreq (words : List String) : List (String × ℚ) :=
  words.foldl (fun acc word => if 2 < word.length then bump acc word else acc) []

/-- Numeric value of a digit string (used only to order integer-like keys). -/
def digitsToNat (cs : List Char) : Nat :=
  cs.foldl (fun n c => n * 10 + (c.toNat - '0'.toNat)) 0

/-- Whether a string is a canonical JavaScript array index: a string of
digits with no leading zero (except `"0"` itself) denoting a value below
`2^32 - 1`.  Such object keys enumerate before all other keys. -/
def isArrayIndex (s : String) : Bool :=
  !s.data.isEmpty && s.data.all Char.isDigit &&
    (s.data.head? ≠ some '0' || s = "0") && digitsToNat s.data < 4294967295

/-- Models `Object.entries(wordFreq)`: JavaScript enumerates integer-like
keys first in ascending numeric order, then the remaining string keys in
insertion order. -/
def jsEntriesOrder (l : List (String × ℚ)) : List (String × ℚ) :=
  (l.filter (fun p => isArrayIndex p.1)).mergeSort
      (fun a b => decide (digitsToNat a.1.data ≤ digitsToNat b.1.data))
    ++ l.filter (fun p => !isArrayIndex p.1)

/-- Comparator `(a, b) => b[1] - a[1]` of `Array.prototype.sort` (a stable
sort): `a` may precede `b` exactly when `b.2 ≤ a.2`, i.e. descending by
frequency. -/
def leFreq (a b : String × ℚ) : Bool :=
  decide (b.2 ≤ a.2)

/-- Models `wordFreq[word] || 0`: association-list lookup defaulting to 0. -/
def lookupFreq (wf : List (String × ℚ)) (w : String) : ℚ :=
  ((wf.find? (fun q => q.1 == w)).map Prod.snd).getD 0

/-- Models `while (embedding.length < 768) embedding.push(0)` followed by
`embedding.slice(0, 768)`. -/
def padTo768 (l : List ℚ) : List ℚ :=
  (l ++ List.replicate (768 - l.length) 0).take 768

/-- Translation of `createSimpleEmbedding` in `src/services.js`: the
deterministic local bag-of-words fallback embedding. -/
def createSimpleEmbedding (text : String) : List ℚ :=
  let words := wordTokens text
  let wf := wordFreq words
  let topWords := ((jsEntriesOrder wf).mergeSort leFreq).take 100
  let vocab := topWords.map Prod.fst
  let embedding := vocab.map (fun word => lookupFreq wf word)
  padTo768 embedding

/-- Reference definition following the specification text of 4.2 word for
word: lowercase, tokenize on word boundaries, discard tokens of length at
most 2, count frequency, keep the 100 highest-frequency tokens as an
ordered vocabulary with ties broken by first-seen order (a stable
descending sort of the first-seen-ordered frequency table), emit the
counts at those positions, then zero-pad or truncate to dimension 768. -/
def specBagOfWords (text : String) : List ℚ :=
  let wf := wordFreq (wordTokens text)
  padTo768 (((wf.mergeSort leFreq).take 100).map Prod.snd)

/-- Translation of `getJinaBatchEmbeddings` in `src/services.js`.  The
remote provider is an oracle giving the outcome of the one batched HTTP
call; a missing `JINA_API_KEY` throws before the call.  Every failure is
caught and recovered by mapping `createSimpleEmbedding` over the original
texts, so the function itself is total. -/
def getJinaBatchEmbeddings (apiKey : Option String)
    (provider : List String → Except Err (List Vec)) (texts : List String) : List Vec :=
  match apiKey with
  | none => texts.map createSimpleEmbedding
  | some _ =>
    let processedTexts := texts.map (fun t => t.take 8000)
    match provider processedTexts with
    | .ok embs => embs
    | .error _ => texts.map createSimpleEmbedding

/-- Translation of `getJinaEmbedding`: a single-item batch, taking
`embeddings[0]`. -/
def getJinaEmbedding (apiKey : Option String)
    (provider : List String → Except Err (List Vec)) (text : String) : Vec :=
  (getJinaBatchEmbeddings apiKey provider [text]).getD 0 []

/-! ### Articles, indexed points, and the batched ingestion pipeline -/

structure Article where
  id : String
  title : String
  description : String
  link : String
  pubDate : String
  fullText : String
  source : String
deriving Repr, DecidableEq

structure Payload where
  articleId : String
  title : String
  description : String
  link : String
  pubDate : String
  fullText : String
  source : String
deriving Repr, DecidableEq

/-- Payload stored with each point, as built in `createArticleEmbeddings`. -/
def Article.payload (a : Article) : Payload :=
  { articleId := a.id, title := a.title, description := a.description,
    link := a.link, pubDate := a.pubDate, fullText := a.fullText, source := a.source }

structure Point where
  id : Nat
  vector : Vec
  payload : Payload
deriving Repr, DecidableEq

/-- Models `batch.map((article, idx) => ({ id: start + idx, vector:
embeddings[idx], payload: {...} }))`. -/
def mkPoints (start : Nat) : List Article → List Vec → List Point
  | [], _ => []
  | a :: rest, embs =>
    { id := start, vector := embs.getD 0 [], payload := a.payload }
      :: mkPoints (start + 1) rest (embs.drop 1)

/-- Models `Math.ceil(n / b)` for natural `n` and positive `b`. -/
def numBatches (n b : Nat) : Nat := (n + b - 1) / b

/-- Oracles for one ingestion run: the embedding provider and the vector
index upsert, indexed by the sequential call number. -/
structure IngestEnv where
  apiKey : Option String
  provider : Nat → List String → Except Err (List Vec)
  upsert : Nat → List Point → Except Err Unit

/-- Translation of the batch loop of `createArticleEmbeddings`: for batch
`i`, slice the articles, embed the texts as one batched call, build the
points with ids `start + idx`, and upsert; a failed upsert is rethrown,
aborting the remaining batches.  The second component logs, per executed
batch, the texts of its embedding call and the points it upserted. -/
def ingestLoop (env : IngestEnv) (articles : List Article) (b : Nat) :
    Nat → Nat → Except Err Unit × List (List String × List Point)
  | 0, _ => (.ok (), [])
  | n + 1, i =>
    let batch := (articles.drop (i * b)).take b
    let texts := batch.map Article.fullText
    let embeddings := getJinaBatchEmbeddings env.apiKey (env.provider i) texts
    let points := mkPoints (i * b) batch embeddings
    match env.upsert i points with
    | .ok _ =>
      let rest := ingestLoop env articles b n (i + 1)
      (rest.1, (texts, points) :: rest.2)
    | .error e => (.error e, [(texts, points)])

/-- Translation of `createArticleEmbeddings` in `src/services.js`,
parameterized by the article list and batch size it reads from module
state and configuration.  Returns `newsArticles.length` on success. -/
def createArticleEmbeddings (env : IngestEnv) (articles : List Article) (b : Nat) :
    Except Err Nat × List (List String × List Point) :=
  let r := ingestLoop env articles b (numBatches articles.length b) 0
  (r.1.map (fun _ => articles.length), r.2)

/-! ### Vector search / retrieval engine -/

structure SearchHit where
  score : ℚ
  payload : Payload
deriving Repr, DecidableEq

/-- Oracles used by a single retrieval call: the embedding provider (one
batched call) and the vector index search. -/
structure RetrievalEnv where
  apiKey : Option String
  provider : List String → Except Err (List Vec)
  search : Vec → Nat → Except Err (List SearchHit)

structure RetrievedArticle where
  id : String
  title : String
  description : String
  link : String
  pubDate : String
  fullText : String
  source : String
  score : ℚ
deriving Repr, DecidableEq

/-- Models the `searchResult.map((result) => ({...}))` step of
`retrieveRelevantArticles`. -/
def SearchHit.toArticle (h : SearchHit) : RetrievedArticle :=
  { id := h.payload.articleId, title := h.payload.title,
    description := h.payload.description, link := h.payload.link,
    pubDate := h.payload.pubDate, fullText := h.payload.fullText,
    source := h.payload.source, score := h.score }

/-- Translation of `retrieveRelevantArticles` in `src/services.js`.  In the
source `topK` is a default parameter equal to `CONFIG.TOP_K_RESULTS`; here
it is passed explicitly and `generateAnswer` supplies that constant. -/
def retrieveRelevantArticles (env : RetrievalEnv) (query : String) (topK : Nat) :
    Except Err (List RetrievedArticle) :=
  let queryEmbedding := getJinaEmbedding env.apiKey env.provider query
  match env.search queryEmbedding topK with
  | .ok searchResult => .ok (searchResult.map SearchHit.toArticle)
  | .error e => .error e

/-! ### Session store and the RAG answer generator -/

structure SourceRef where
  title : String
  link : String
  source : String
  score : ℚ
deriving Repr, DecidableEq

structure Turn where
  role : String
  content : String
  timestamp : Nat
  sources : Option (List SourceRef) := none
deriving Repr, DecidableEq

/-- The Redis keyspace restricted to this module's session values; the
JSON round-trip `JSON.parse ∘ JSON.stringify` is the identity here. -/
def Store := String → Option (List Turn)

/-- Overwrite of one key, as performed by `redisClient.set`. -/
def Store.set (s : Store) (k : String) (v : List Turn) : Store :=
  fun k' => if k' = k then some v else s k'

/-- Models the key `` `session:${sessionId}` ``. -/
def sessionKey (sessionId : String) : String := "session:" ++ sessionId

structure CallerSource where
  title : String
  link : String
  pubDate : String
  source : String
  relevance : String
deriving Repr, DecidableEq

structure AnswerResult where
  answer : String
  sources : List CallerSource
deriving Repr, DecidableEq

/-- Stand-in for the JavaScript `Number.prototype.toFixed(1)` rendering of
a score; its exact digits are irrelevant to every property proved here. -/
def toFixed1 (q : ℚ) : String :=
  let m : Int := ⌊q * 10 + 1 / 2⌋
  toString (m / 10) ++ "." ++ toString (m % 10)

/-- Models the numbered source block built from the retrieval results. -/
def renderSourceBlock (articles : List RetrievedArticle) : String :=
  String.intercalate "\n\n" (articles.mapIdx (fun i a =>
    "[Source " ++ toString (i + 1) ++ "] (" ++ a.source ++ " - Relevance: " ++
      toFixed1 (a.score * 100) ++ "%)\n" ++
    "Title: " ++ a.title ++ "\n" ++
    "Content: " ++ a.description ++ "\n" ++
    "URL: " ++ a.link ++ "\n" ++
    "Published: " ++ a.pubDate))

/-- Models one `User: ...` / `Assistant: ...` line. -/
def renderHistoryLine (h : Turn) : String :=
  (if h.role = "user" then "User" else "Assistant") ++ ": " ++ h.content

/-- Models the `history.slice(-6)` conversation block, empty when the
history is empty. -/
def renderConversation (history : List Turn) : String :=
  if 0 < history.length then
    "\n\nPrevious conversation:\n" ++
      String.intercalate "\n" ((history.drop (history.length - 6)).map renderHistoryLine)
  else ""

/-- Fixed instruction preamble of the prompt template in `generateAnswer`. -/
def promptPreamble : String :=
  "You are a knowledgeable and helpful news assistant. Your task is to answer the user\x27s question based on the provided news articles.\n\nGuidelines:\n- Provide accurate, well-informed answers based on the sources\n- Use clear headings with ## for main topics  \n- Use bullet points (-) for lists\n- Write in a conversational, friendly tone\n- Cite specific sources when referencing information (e.g., \"According to Source 1...\")\n- Keep paragraphs short (2-3 sentences max)\n- If the articles don\x27t contain enough information, acknowledge this"

/-- The full prompt template of `generateAnswer`. -/
def buildPrompt (context conversationContext query : String) : String :=
  promptPreamble ++ "\n\nNews Sources (with relevance scores and sources):\n" ++
    context ++ "\n" ++ conversationContext ++ "\n\nUser Question: " ++ query ++
    "\n\nPlease provide a clear, well-formatted answer using markdown:"

/-- Oracles for one `generateAnswer` call: the retrieval dependencies, the
outcome of the `redisClient.get`, the language model, the outcome of the
`redisClient.set`, and the clock read by `Date.now()`. -/
structure AnswerEnv where
  apiKey : Option String
  provider : List String → Except Err (List Vec)
  search : Vec → Nat → Except Err (List SearchHit)
  getOutcome : Except Err Unit
  gemini : String → Except Err String
  setOutcome : Except Err Unit
  now : Nat

/-- Retrieval-engine view of an answer-call environment. -/
def AnswerEnv.retrieval (env : AnswerEnv) : RetrievalEnv :=
  { apiKey := env.apiKey, provider := env.provider, search := env.search }

/-- Source entry stored on the assistant turn. -/
def RetrievedArticle.toSourceRef (a : RetrievedArticle) : SourceRef :=
  { title := a.title, link := a.link, source := a.source, score := a.score }

/-- Caller-facing source entry returned by `generateAnswer`. -/
def RetrievedArticle.toCallerSource (a : RetrievedArticle) : CallerSource :=
  { title := a.title, link := a.link, pubDate := a.pubDate, source := a.source,
    relevance := toFixed1 (a.score * 100) ++ "%" }

/-- Translation of `generateAnswer` in `src/services.js`.  All statements
sit in one `try` whose `catch` rethrows, so a failure of any awaited call
(retrieval, history read, model call, history write) propagates and the
statements after it, in particular the `redisClient.set`, do not run.  The
returned store reflects the single session write on the success path. -/
def generateAnswer (env : AnswerEnv) (store : Store) (query sessionId : String) :
    Except Err AnswerResult × Store :=
  match retrieveRelevantArticles env.retrieval query CONFIG.TOP_K_RESULTS with
  | .error e => (.error e, store)
  | .ok relevantArticles =>
    let context := renderSourceBlock relevantArticles
    match env.getOutcome with
    | .error e => (.error e, store)
    | .ok _ =>
      let history := (store (sessionKey sessionId)).getD []
      let conversationContext := renderConversation history
      let prompt := buildPrompt context conversationContext query
      match env.gemini prompt with
      | .error e => (.error e, store)
      | .ok answer =>
        let history2 := history ++
          [{ role := "user", content := query, timestamp := env.now, sources := none },
           { role := "assistant", content := answer, timestamp := env.now,
             sources := some (relevantArticles.map RetrievedArticle.toSourceRef) }]
        match env.setOutcome with
        | .error e => (.error e, store)
        | .ok _ =>
          (.ok { answer := answer,
                 sources := relevantArticles.map RetrievedArticle.toCallerSource },
           store.set (sessionKey sessionId) history2)

/-- Oracles for the explicit session-store operations: outcomes of the
`redisClient.get` and `redisClient.del` calls. -/
structure StoreEnv where
  getOutcome : Except Err Unit
  delOutcome : Except Err Unit

/-- Translation of `getChatHistory` in `src/services.js`: its `catch`
block logs and returns `[]`, so a failed store read yields a successful
empty history rather than an error. -/
def getChatHistory (env : StoreEnv) (store : Store) (sessionId : String) :
    Except Err (List Turn) :=
  match env.getOutcome with
  | .ok _ => .ok ((store (sessionKey sessionId)).getD [])
  | .error _ => .ok []

/-- Translation of `clearSession` in `src/services.js`: returns whether a
key was deleted; its `catch` block rethrows the store error. -/
def clearSession (env : StoreEnv) (store : Store) (sessionId : String) :
    Except Err Bool × Store :=
  match env.delOutcome with
  | .ok _ =>
    let deleted : Nat := if (store (sessionKey sessionId)).isSome then 1 else 0
    (.ok (decide (0 < deleted)),
     fun k => if k = sessionKey sessionId then none else store k)
  | .error e => (.error e, store)

/-- Concrete article used by the closed witness instances. -/
def sampleArticle (n : String) : Article :=
  { id := "bbc-" ++ n, title := "Title " ++ n, description := "Desc " ++ n,
    link := "https://example.org/" ++ n, pubDate := "2025-01-0" ++ n,
    fullText := "full text " ++ n, source := "BBC" }

/-- Concrete payload used by the closed witness instances. -/
def samplePayload : Payload :=
  (sampleArticle "1").payload

/-! ### Theorems -/

/-- C1 (counterexample): with retrieval, history read and the language
model all succeeding but the history write failing, `generateAnswer` does
not return the produced answer; the persistence failure is rethrown as an
error, contradicting the claim that the caller still receives the answer. -/
theorem claim_C1_counterexample :
    (generateAnswer
        ⟨none, fun _ => Except.error "jina down", fun _ _ => Except.ok [],
         Except.ok (), fun _ => Except.ok "the answer", Except.error "redis down", 0⟩
        (fun _ => none) "q" "s1").1 = Except.error "redis down" ∧
    (generateAnswer
        ⟨none, fun _ => Except.error "jina down", fun _ _ => Except.ok [],
         Except.ok (), fun _ => Except.ok "the answer", Except.error "redis down", 0⟩
        (fun _ => none) "q" "s1").1 ≠ Except.ok { answer := "the answer", sources := [] } := by
  have h1 : (generateAnswer
      ⟨none, fun _ => Except.error "jina down", fun _ _ => Except.ok [],
       Except.ok (), fun _ => Except.ok "the answer", Except.error "redis down", 0⟩
      (fun _ => none) "q" "s1").1 = Except.error "redis down" := rfl
  refine ⟨h1, ?_⟩
  rw [h1]
  intro h
  exact Except.noConfusion h

/-- C1 (amended): if persisting the updated session history (step 8) fails
after the language model has produced an answer, `generateAnswer` does not
return that answer: the persistence error propagates to the caller, and
the stored session history is left unchanged. -/
theorem claim_C1_amended_persistence_failure_propagates
    (env : AnswerEnv) (store : Store) (query sessionId : String) (e : Err)
    (R : List RetrievedArticle) (ans : String)
    (hret : retrieveRelevantArticles env.retrieval query CONFIG.TOP_K_RESULTS = Except.ok R)
    (hget : env.getOutcome = Except.ok ())
    (hgem : ∀ p, env.gemini p = Except.ok ans)
    (hset : env.setOutcome = Except.error e) :
    generateAnswer env store query sessionId = (Except.error e, store) := by
  simp [generateAnswer, hret, hget, hgem, hset]

/-- C1 (witness for the amended theorem). -/
theorem claim_C1_amended_witness :
    generateAnswer
        ⟨none, fun _ => Except.error "jina down", fun _ _ => Except.ok [],
         Except.ok (), fun _ => Except.ok "the answer", Except.error "redis down", 0⟩
        (fun _ => none) "q" "s1" = (Except.error "redis down", fun _ => none) :=
  claim_C1_amended_persistence_failure_propagates
    ⟨none, fun _ => Except.error "jina down", fun _ _ => Except.ok [],
     Except.ok (), fun _ => Except.ok "the answer", Except.error "redis down", 0⟩
    (fun _ => none) "q" "s1" "redis down" [] "the answer" rfl rfl (fun _ => rfl) rfl

/-- C2 (counterexample): when the session-store read underlying
`getChatHistory` fails, the call does not fail: the error is swallowed and
an empty history is returned as a successful result, contradicting the
claim that the error is surfaced as-is. -/
theorem claim_C2_counterexample :
    getChatHistory ⟨Except.error "redis down", Except.ok ()⟩ (fun _ => none) "s1" =
        Except.ok [] ∧
    getChatHistory ⟨Except.error "redis down", Except.ok ()⟩ (fun _ => none) "s1" ≠
        Except.error "redis down" := by
  refine ⟨rfl, ?_⟩
  intro h
  exact Except.noConfusion h

/-- C2 (amended): a failed session-store read in `getChatHistory` is
converted into a successful empty history (the error is not surfaced);
only the explicit delete operation `clearSession` surfaces the store error
to the caller as-is. -/
theorem claim_C2_amended_read_swallowed_delete_surfaced
    (env : StoreEnv) (store : Store) (sessionId : String) (e e' : Err)
    (hget : env.getOutcome = Except.error e)
    (hdel : env.delOutcome = Except.error e') :
    getChatHistory env store sessionId = Except.ok [] ∧
      (clearSession env store sessionId).1 = Except.error e' := by
  constructor
  · simp [getChatHistory, hget]
  · simp [clearSession, hdel]

/-- C2 (witness for the amended theorem). -/
theorem claim_C2_amended_witness :
    getChatHistory ⟨Except.error "boom", Except.error "bust"⟩ (fun _ => none) "s1" =
        Except.ok [] ∧
      (clearSession ⟨Except.error "boom", Except.error "bust"⟩ (fun _ => none) "s1").1 =
        Except.error "bust" :=
  claim_C2_amended_read_swallowed_delete_surfaced
    ⟨Except.error "boom", Except.error "bust"⟩ (fun _ => none) "s1" "boom" "bust" rfl rfl

/-- C3: if any of steps 1 to 6 of `generateAnswer` fails — the retrieval
call, the session-history read, or the language-model call (the prompt
construction steps are pure) — the whole call fails with that error and
the session store is left unchanged: no turn is appended and no write
occurs. -/
theorem claim_C3_early_failure_no_mutation
    (env : AnswerEnv) (store : Store) (query sessionId : String) (e : Err)
    (h : retrieveRelevantArticles env.retrieval query CONFIG.TOP_K_RESULTS = Except.error e
       ∨ (env.getOutcome = Except.error e ∧
            ∃ R, retrieveRelevantArticles env.retrieval query CONFIG.TOP_K_RESULTS = Except.ok R)
       ∨ (env.getOutcome = Except.ok () ∧ (∀ p, env.gemini p = Except.error e) ∧
            ∃ R, retrieveRelevantArticles env.retrieval query CONFIG.TOP_K_RESULTS = Except.ok R)) :
    generateAnswer env store query sessionId = (Except.error e, store) := by
  rcases h with hret | ⟨hget, R, hret⟩ | ⟨hget, hgem, R, hret⟩
  · simp [generateAnswer, hret]
  · simp [generateAnswer, hret, hget]
  · simp [generateAnswer, hret, hget, hgem]

/-- C3 (witness): a failing language-model call aborts the call and leaves
the store untouched. -/
theorem claim_C3_witness :
    generateAnswer
        ⟨none, fun _ => Except.error "jina down", fun _ _ => Except.ok [],
         Except.ok (), fun _ => Except.error "gemini down", Except.ok (), 0⟩
        (fun _ => none) "q" "s1" = (Except.error "gemini down", fun _ => none) :=
  claim_C3_early_failure_no_mutation
    ⟨none, fun _ => Except.error "jina down", fun _ _ => Except.ok [],
     Except.ok (), fun _ => Except.error "gemini down", Except.ok (), 0⟩
    (fun _ => none) "q" "s1" "gemini down"
    (Or.inr (Or.inr ⟨rfl, fun _ => rfl, [], rfl⟩))

/-- C6: assuming the vector-index search honors its limit-and-order
contract (at most `k` hits, descending by score; all points when the index
holds fewer than `k`), `retrieveRelevantArticles` maps the hits one-to-one
in order, so it returns exactly one result per hit, at most `k` of them,
sorted in descending score order; the process-wide default constant
`CONFIG.TOP_K_RESULTS` is 20. -/
theorem claim_C6_retrieval_limit_and_order
    (env : RetrievalEnv) (query : String) (k : Nat) (hits : List SearchHit)
    (hsearch : env.search (getJinaEmbedding env.apiKey env.provider query) k = Except.ok hits)
    (hlen : hits.length ≤ k)
    (hsorted : hits.Pairwise (fun a b => b.score ≤ a.score)) :
    retrieveRelevantArticles env query k = Except.ok (hits.map SearchHit.toArticle) ∧
      (hits.map SearchHit.toArticle).length = hits.length ∧
      (hits.map SearchHit.toArticle).length ≤ k ∧
      (hits.map SearchHit.toArticle).Pairwise (fun a b => b.score ≤ a.score) ∧
      CONFIG.TOP_K_RESULTS = 20 := by
  refine ⟨?_, by simp, by simpa using hlen, ?_, rfl⟩
  · simp [retrieveRelevantArticles, hsearch]
  · exact List.pairwise_map.mpr (hsorted.imp (fun h => by simpa [SearchHit.toArticle] using h))

/-- C6 (witness): a concrete two-hit search result sorted descending. -/
theorem claim_C6_witness :
    retrieveRelevantArticles
        ⟨none, fun _ => Except.ok [],
         fun _ _ => Except.ok [⟨3 / 4, samplePayload⟩, ⟨1 / 2, samplePayload⟩]⟩ "q" 20 =
      Except.ok ([⟨3 / 4, samplePayload⟩, ⟨1 / 2, samplePayload⟩].map SearchHit.toArticle) ∧
    ([(⟨3 / 4, samplePayload⟩ : SearchHit), ⟨1 / 2, samplePayload⟩].map SearchHit.toArticle).length =
      [(⟨3 / 4, samplePayload⟩ : SearchHit), ⟨1 / 2, samplePayload⟩].length ∧
    ([(⟨3 / 4, samplePayload⟩ : SearchHit), ⟨1 / 2, samplePayload⟩].map SearchHit.toArticle).length ≤ 20 ∧
    ([(⟨3 / 4, samplePayload⟩ : SearchHit), ⟨1 / 2, samplePayload⟩].map SearchHit.toArticle).Pairwise
      (fun a b => b.score ≤ a.score) ∧
    CONFIG.TOP_K_RESULTS = 20 :=
  claim_C6_retrieval_limit_and_order
    ⟨none, fun _ => Except.ok [],
     fun _ _ => Except.ok [⟨3 / 4, samplePayload⟩, ⟨1 / 2, samplePayload⟩]⟩ "q" 20
    [⟨3 / 4, samplePayload⟩, ⟨1 / 2, samplePayload⟩] rfl (by decide)
    (by simp [List.pairwise_cons]; norm_num)

/-- C8: the fallback embedding is deterministic — identical input texts
yield identical vectors, in particular of identical length. -/
theorem claim_C8_fallback_deterministic (t₁ t₂ : String) (h : t₁ = t₂) :
    createSimpleEmbedding t₁ = createSimpleEmbedding t₂ ∧
      (createSimpleEmbedding t₁).length = (createSimpleEmbedding t₂).length := by
  subst h
  exact ⟨rfl, rfl⟩

/-- C8 (witness). -/
theorem claim_C8_witness :
    createSimpleEmbedding "tech news today" = createSimpleEmbedding "tech news today" ∧
      (createSimpleEmbedding "tech news today").length =
        (createSimpleEmbedding "tech news today").length :=
  claim_C8_fallback_deterministic "tech news today" "tech news today" rfl

/-- C10: the embedding operation is total with respect to provider
failures — `getJinaBatchEmbeddings` returns a plain list (it can never
fail), and on a missing credential or any remote failure it returns the
deterministic fallback vector of each input text; consequently a failed
`retrieveRelevantArticles` call can only have failed in the vector-index
search step, whose error it propagates. -/
theorem claim_C10_embedding_total (apiKey : Option String)
    (provider : List String → Except Err (List Vec)) (texts : List String) :
    (apiKey = none →
       getJinaBatchEmbeddings apiKey provider texts = texts.map createSimpleEmbedding) ∧
    (∀ e, provider (texts.map (fun t => t.take 8000)) = Except.error e →
       getJinaBatchEmbeddings apiKey provider texts = texts.map createSimpleEmbedding) ∧
    (∀ env : RetrievalEnv, ∀ query : String, ∀ k : Nat, ∀ e : Err,
       retrieveRelevantArticles env query k = Except.error e →
       env.search (getJinaEmbedding env.apiKey env.provider query) k = Except.error e) := by
  refine ⟨fun h => by simp [getJinaBatchEmbeddings, h], fun e he => ?_,
          fun env query k e h => ?_⟩
  · cases apiKey with
    | none => simp [getJinaBatchEmbeddings]
    | some key => simp [getJinaBatchEmbeddings, he]
  · simp only [retrieveRelevantArticles] at h
    cases hs : env.search (getJinaEmbedding env.apiKey env.provider query) k with
    | ok v =>
      rw [hs] at h
      exact Except.noConfusion h
    | error e' =>
      rw [hs] at h
      simp at h
      rw [← h]

/-- C10 (witness): fallback on missing key, fallback on provider failure,
and error propagation from a failing search. -/
theorem claim_C10_witness :
    getJinaBatchEmbeddings none (fun _ => Except.error "jina") ["ai news"] =
        ["ai news"].map createSimpleEmbedding ∧
    getJinaBatchEmbeddings (some "key") (fun _ => Except.error "jina") ["ai news"] =
        ["ai news"].map createSimpleEmbedding ∧
    (RetrievalEnv.mk none (fun _ => Except.ok []) (fun _ _ => Except.error "qdrant")).search
        (getJinaEmbedding none (fun _ => Except.ok []) "q") 5 = Except.error "qdrant" :=
  ⟨(claim_C10_embedding_total none (fun _ => Except.error "jina") ["ai news"]).1 rfl,
   (claim_C10_embedding_total (some "key") (fun _ => Except.error "jina") ["ai news"]).2.1
     "jina" rfl,
   (claim_C10_embedding_total none (fun _ => Except.ok []) []).2.2
     (RetrievalEnv.mk none (fun _ => Except.ok []) (fun _ _ => Except.error "qdrant"))
     "q" 5 "qdrant" rfl⟩

/-- C9: a successful `generateAnswer` call returns one caller-facing
source per retrieval result (hence at most the configured top-k whenever
the search honors its limit), and appends exactly two turns to the stored
session history — a user turn carrying the raw query followed by an
assistant turn carrying the raw answer with the per-result source list; on
a session with no prior history, a subsequent `getChatHistory` returns
exactly those 2 turns. -/
theorem claim_C9_success_appends_two_turns
    (env : AnswerEnv) (store : Store) (query sessionId : String)
    (R : List RetrievedArticle) (ans : String)
    (hret : retrieveRelevantArticles env.retrieval query CONFIG.TOP_K_RESULTS = Except.ok R)
    (hget : env.getOutcome = Except.ok ())
    (hgem : ∀ p, env.gemini p = Except.ok ans)
    (hset : env.setOutcome = Except.ok ()) :
    generateAnswer env store query sessionId =
      (Except.ok { answer := ans, sources := R.map RetrievedArticle.toCallerSource },
       Store.set store (sessionKey sessionId)
         ((store (sessionKey sessionId)).getD [] ++
          [{ role := "user", content := query, timestamp := env.now, sources := none },
           { role := "assistant", content := ans, timestamp := env.now,
             sources := some (R.map RetrievedArticle.toSourceRef) }])) ∧
    (R.map RetrievedArticle.toCallerSource).length = R.length ∧
    (R.length ≤ CONFIG.TOP_K_RESULTS →
      (R.map RetrievedArticle.toCallerSource).length ≤ CONFIG.TOP_K_RESULTS) ∧
    (Store.set store (sessionKey sessionId)
        ((store (sessionKey sessionId)).getD [] ++
         [{ role := "user", content := query, timestamp := env.now, sources := none },
          { role := "assistant", content := ans, timestamp := env.now,
            sources := some (R.map RetrievedArticle.toSourceRef) }]))
        (sessionKey sessionId) =
      some ((store (sessionKey sessionId)).getD [] ++
        [{ role := "user", content := query, timestamp := env.now, sources := none },
         { role := "assistant", content := ans, timestamp := env.now,
           sources := some (R.map RetrievedArticle.toSourceRef) }]) ∧
    (store (sessionKey sessionId) = none →
      getChatHistory ⟨Except.ok (), Except.ok ()⟩
          (Store.set store (sessionKey sessionId)
            ((store (sessionKey sessionId)).getD [] ++
             [{ role := "user", content := query, timestamp := env.now, sources := none },
              { role := "assistant", content := ans, timestamp := env.now,
                sources := some (R.map RetrievedArticle.toSourceRef) }]))
          sessionId =
        Except.ok
          [{ role := "user", content := query, timestamp := env.now, sources := none },
           { role := "assistant", content := ans, timestamp := env.now,
             sources := some (R.map RetrievedArticle.toSourceRef) }]) := by
  refine ⟨?_, by simp, fun h => by simpa using h, by simp [Store.set], fun h0 => ?_⟩
  · simp [generateAnswer, hret, hget, hgem, hset]
  · simp [getChatHistory, Store.set, h0]

/-- C9 (witness): a fresh session, one retrieved article, all calls
succeeding. -/
theorem claim_C9_witness :
    generateAnswer
        ⟨none, fun _ => Except.error "jina down",
         fun _ _ => Except.ok [⟨3 / 4, samplePayload⟩],
         Except.ok (), fun _ => Except.ok "Here is the news.", Except.ok (), 42⟩
        (fun _ => none) "What happened in tech?" "s1" =
      (Except.ok { answer := "Here is the news.",
                   sources := ([⟨3 / 4, samplePayload⟩].map SearchHit.toArticle).map
                     RetrievedArticle.toCallerSource },
       Store.set (fun _ => none) (sessionKey "s1")
         (((fun (_ : String) => (none : Option (List Turn))) (sessionKey "s1")).getD [] ++
          [{ role := "user", content := "What happened in tech?", timestamp := 42, sources := none },
           { role := "assistant", content := "Here is the news.", timestamp := 42,
             sources := some (([⟨3 / 4, samplePayload⟩].map SearchHit.toArticle).map
               RetrievedArticle.toSourceRef) }])) ∧
    (([⟨3 / 4, samplePayload⟩].map SearchHit.toArticle).map RetrievedArticle.toCallerSource).length =
      ([(⟨3 / 4, samplePayload⟩ : SearchHit)].map SearchHit.toArticle).length ∧
    (([(⟨3 / 4, samplePayload⟩ : SearchHit)].map SearchHit.toArticle).length ≤ CONFIG.TOP_K_RESULTS →
      (([⟨3 / 4, samplePayload⟩].map SearchHit.toArticle).map
        RetrievedArticle.toCallerSource).length ≤ CONFIG.TOP_K_RESULTS) ∧
    (Store.set (fun _ => none) (sessionKey "s1")
        (((fun (_ : String) => (none : Option (List Turn))) (sessionKey "s1")).getD [] ++
         [{ role := "user", content := "What happened in tech?", timestamp := 42, sources := none },
          { role := "assistant", content := "Here is the news.", timestamp := 42,
            sources := some (([⟨3 / 4, samplePayload⟩].map SearchHit.toArticle).map
              RetrievedArticle.toSourceRef) }]))
        (sessionKey "s1") =
      some (((fun (_ : String) => (none : Option (List Turn))) (sessionKey "s1")).getD [] ++
        [{ role := "user", content := "What happened in tech?", timestamp := 42, sources := none },
         { role := "assistant", content := "Here is the news.", timestamp := 42,
           sources := some (([⟨3 / 4, samplePayload⟩].map SearchHit.toArticle).map
             RetrievedArticle.toSourceRef) }]) ∧
    ((fun (_ : String) => (none : Option (List Turn))) (sessionKey "s1") = none →
      getChatHistory ⟨Except.ok (), Except.ok ()⟩
          (Store.set (fun _ => none) (sessionKey "s1")
            (((fun (_ : String) => (none : Option (List Turn))) (sessionKey "s1")).getD [] ++
             [{ role := "user", content := "What happened in tech?", timestamp := 42, sources := none },
              { role := "assistant", content := "Here is the news.", timestamp := 42,
                sources := some (([⟨3 / 4, samplePayload⟩].map SearchHit.toArticle).map
                  RetrievedArticle.toSourceRef) }]))
          "s1" =
        Except.ok
          [{ role := "user", content := "What happened in tech?", timestamp := 42, sources := none },
           { role := "assistant", content := "Here is the news.", timestamp := 42,
             sources := some (([⟨3 / 4, samplePayload⟩].map SearchHit.toArticle).map
               RetrievedArticle.toSourceRef) }]) :=
  claim_C9_success_appends_two_turns
    ⟨none, fun _ => Except.error "jina down",
     fun _ _ => Except.ok [⟨3 / 4, samplePayload⟩],
     Except.ok (), fun _ => Except.ok "Here is the news.", Except.ok (), 42⟩
    (fun _ => none) "What happened in tech?" "s1"
    ([(⟨3 / 4, samplePayload⟩ : SearchHit)].map SearchHit.toArticle) "Here is the news."
    rfl rfl (fun _ => rfl) rfl

/-- The padding step always produces a vector of the fixed dimension 768. -/
lemma length_padTo768 (l : List ℚ) : (padTo768 l).length = 768 := by
  unfold padTo768
  rw [List.length_take, List.length_append, List.length_replicate]
  omega

/-- Keys after a `bump`: unchanged if the word was present, otherwise the
word is appended. -/
lemma bump_keys (l : List (String × ℚ)) (w : String) :
    (bump l w).map Prod.fst =
      if w ∈ l.map Prod.fst then l.map Prod.fst else l.map Prod.fst ++ [w] := by
  induction l with
  | nil => simp [bump]
  | cons p rest ih =>
    obtain ⟨k, v⟩ := p
    by_cases hk : k = w
    · subst hk
      simp [bump]
    · have hne : ¬ (w = k) := fun h => hk h.symm
      by_cases hw : w ∈ rest.map Prod.fst
      · simp [bump, hk, ih, hw, hne]
      · simp [bump, hk, ih, hw, hne]

/-- A `bump` preserves key uniqueness. -/
lemma nodup_keys_bump (l : List (String × ℚ)) (w : String)
    (h : (l.map Prod.fst).Nodup) : ((bump l w).map Prod.fst).Nodup := by
  by_cases hw : w ∈ l.map Prod.fst
  · rw [bump_keys, if_pos hw]
    exact h
  · rw [bump_keys, if_neg hw]
    refine List.Nodup.append h (List.nodup_singleton w) ?_
    intro a ha hb
    rw [List.mem_singleton] at hb
    subst hb
    exact hw ha

/-- The frequency table built by the counting loop has pairwise distinct
keys. -/
lemma nodup_keys_wordFreq (ws : List String) : ((wordFreq ws).map Prod.fst).Nodup := by
  suffices h : ∀ (ws : List String) (acc : List (String × ℚ)),
      (acc.map Prod.fst).Nodup →
      ((ws.foldl (fun acc word => if 2 < word.length then bump acc word else acc) acc).map
        Prod.fst).Nodup by
    exact h ws [] (by simp)
  intro ws
  induction ws with
  | nil =>
    intro acc h
    simpa using h
  | cons w rest ih =>
    intro acc h
    simp only [List.foldl_cons]
    by_cases hw : 2 < w.length
    · simp only [if_pos hw]
      exact ih _ (nodup_keys_bump _ _ h)
    · simp only [if_neg hw]
      exact ih _ h

/-- On an association list with distinct keys, looking a member pair's key
up returns that pair's value. -/
lemma lookupFreq_mem (l : List (String × ℚ)) (p : String × ℚ)
    (hn : (l.map Prod.fst).Nodup) (hp : p ∈ l) : lookupFreq l p.1 = p.2 := by
  induction l with
  | nil => simp at hp
  | cons q rest ih =>
    rw [List.map_cons, List.nodup_cons] at hn
    obtain ⟨hq, hn'⟩ := hn
    rcases List.mem_cons.mp hp with hpq | hp'
    · subst hpq
      simp [lookupFreq, List.find?_cons]
    · have hne : (q.1 == p.1) = false := by
        rw [beq_eq_false_iff_ne]
        intro h
        exact hq (h ▸ List.mem_map.mpr ⟨p, hp', rfl⟩)
      have step : lookupFreq (q :: rest) p.1 = lookupFreq rest p.1 := by
        simp [lookupFreq, List.find?_cons, hne]
      rw [step]
      exact ih hn' hp'

/-- The JavaScript `Object.entries` order is a permutation of the
insertion-order association list. -/
lemma perm_jsEntriesOrder (l : List (String × ℚ)) : (jsEntriesOrder l).Perm l := by
  unfold jsEntriesOrder
  refine ((List.mergeSort_perm _ _).append_right _).trans ?_
  exact List.filter_append_perm _ l

/-- The frequencies of a table sorted with the descending-by-frequency
comparator are sorted descending. -/
lemma sorted_snd_mergeSort (l : List (String × ℚ)) :
    ((l.mergeSort leFreq).map Prod.snd).Pairwise (fun a b : ℚ => b ≤ a) := by
  have htrans : ∀ (a b c : String × ℚ),
      leFreq a b = true → leFreq b c = true → leFreq a c = true := by
    intro a b c hab hbc
    simp only [leFreq, decide_eq_true_eq] at *
    exact le_trans hbc hab
  have htotal : ∀ (a b : String × ℚ), (leFreq a b || leFreq b a) = true := by
    intro a b
    simp only [leFreq, Bool.or_eq_true, decide_eq_true_eq]
    exact le_total b.2 a.2
  have hs := List.sorted_mergeSort htrans htotal l
  rw [List.pairwise_map]
  exact hs.imp (fun h => by simpa [leFreq] using h)

/-- The emitted frequency sequence of the stable descending sort depends
only on the multiset of entries: two permuted tables sort to the same
frequency sequence (all tied entries carry equal frequencies). -/
lemma map_snd_mergeSort_congr (l₁ l₂ : List (String × ℚ)) (h : l₁.Perm l₂) :
    (l₁.mergeSort leFreq).map Prod.snd = (l₂.mergeSort leFreq).map Prod.snd := by
  haveI : IsAntisymm ℚ (fun a b : ℚ => b ≤ a) := ⟨fun a b h₁ h₂ => le_antisymm h₂ h₁⟩
  refine List.eq_of_perm_of_sorted ?_ (sorted_snd_mergeSort l₁) (sorted_snd_mergeSort l₂)
  exact ((List.mergeSort_perm l₁ _).map _).trans
    ((h.map _).trans ((List.mergeSort_perm l₂ _).map _).symm)

/-- C7: for every input text the fallback embedding of the source equals
the reference bag-of-words definition of the specification (lowercase,
word-boundary tokens, drop tokens of length at most 2, top-100 vocabulary
by frequency with first-seen tie-breaking, emit counts, pad or truncate),
and the result has exactly the fixed dimension 768. -/
theorem claim_C7_fallback_matches_reference (text : String) :
    createSimpleEmbedding text = specBagOfWords text ∧
      (createSimpleEmbedding text).length = 768 := by
  constructor
  · simp only [createSimpleEmbedding, specBagOfWords]
    congr 1
    rw [List.map_map]
    have h1 : ∀ p ∈ ((jsEntriesOrder (wordFreq (wordTokens text))).mergeSort leFreq).take 100,
        ((fun word => lookupFreq (wordFreq (wordTokens text)) word) ∘ Prod.fst) p =
          Prod.snd p := by
      intro p hp
      have hp1 : p ∈ (jsEntriesOrder (wordFreq (wordTokens text))).mergeSort leFreq :=
        List.mem_of_mem_take hp
      have hp2 : p ∈ jsEntriesOrder (wordFreq (wordTokens text)) :=
        (List.mergeSort_perm _ _).mem_iff.mp hp1
      have hp3 : p ∈ wordFreq (wordTokens text) :=
        (perm_jsEntriesOrder _).mem_iff.mp hp2
      exact lookupFreq_mem _ p (nodup_keys_wordFreq _) hp3
    rw [List.map_congr_left h1]
    rw [List.map_take, List.map_take]
    rw [map_snd_mergeSort_congr _ _ (perm_jsEntriesOrder _)]
  · exact length_padTo768 _

/-- Ceiling division of zero. -/
lemma numBatches_zero (b : Nat) (hb : 0 < b) : numBatches 0 b = 0 := by
  unfold numBatches
  exact Nat.div_eq_of_lt (by omega)

/-- Recurrence of the batch count: one batch for the first `b` articles
plus the batches of the remainder. -/
lemma numBatches_succ (n b : Nat) (hb : 0 < b) (hn : 0 < n) :
    numBatches n b = numBatches (n - b) b + 1 := by
  unfold numBatches
  rcases le_or_lt n b with h | h
  · have h1 : n - b = 0 := by omega
    have h2 : n + b - 1 = (n - 1) + b := by omega
    rw [h1, h2, Nat.add_div_right _ hb]
    have h3 : (n - 1) / b = 0 := Nat.div_eq_of_lt (by omega)
    have h4 : (0 + b - 1) / b = 0 := Nat.div_eq_of_lt (by omega)
    rw [h3, h4]
  · have h2 : n + b - 1 = (n - b + b - 1) + b := by omega
    rw [h2, Nat.add_div_right _ hb]

/-- Flattening a list of mapped blocks commutes with the map. -/
lemma flatten_map_map {α β : Type} (F : α → β) (g : Nat → List α) (ns : List Nat) :
    (ns.map (fun i => (g i).map F)).flatten = ((ns.map g).flatten).map F := by
  induction ns with
  | nil => simp
  | cons x xs ih => simp [ih]

/-- The consecutive slices `articles.slice(i*b, min((i+1)*b, N))` taken for
`ceil(N/b)` batch indices reassemble the whole list. -/
lemma chunks_flatten (b : Nat) (hb : 0 < b) :
    ∀ (n : Nat) (l : List Article), numBatches l.length b = n →
      ((List.range n).map (fun i => (l.drop (i * b)).take b)).flatten = l := by
  intro n
  induction n with
  | zero =>
    intro l hl
    have h0 : l.length = 0 := by
      by_contra hne
      have h1 : 0 < l.length := Nat.pos_of_ne_zero hne
      have h2 := numBatches_succ l.length b hb h1
      omega
    have hnil : l = [] := List.length_eq_zero.mp h0
    subst hnil
    simp
  | succ n ih =>
    intro l hl
    have hpos : 0 < l.length := by
      by_contra hne
      push_neg at hne
      have h0 : l.length = 0 := by omega
      rw [h0, numBatches_zero b hb] at hl
      omega
    simp only [List.range_succ_eq_map, List.map_cons, List.map_map, List.flatten_cons,
      Nat.zero_mul, List.drop_zero]
    have hshift : (List.range n).map ((fun i => (l.drop (i * b)).take b) ∘ Nat.succ) =
        (List.range n).map (fun i => ((l.drop b).drop (i * b)).take b) := by
      apply List.map_congr_left
      intro i _
      show (l.drop (Nat.succ i * b)).take b = ((l.drop b).drop (i * b)).take b
      rw [List.drop_drop, Nat.succ_mul, Nat.add_comm (i * b) b]
    rw [hshift,
      ih (l.drop b) (by rw [List.length_drop]; have := numBatches_succ l.length b hb hpos; omega),
      List.take_append_drop]

/-- The position-based ids `i*b + idx` of the consecutive batches of `l`
concatenate to exactly `0 .. l.length - 1`. -/
lemma chunk_ids_flatten (b : Nat) (hb : 0 < b) :
    ∀ (n : Nat) (l : List Article), numBatches l.length b = n →
      ((List.range n).map (fun i =>
        List.range' (i * b) ((l.drop (i * b)).take b).length)).flatten =
        List.range l.length := by
  intro n
  induction n with
  | zero =>
    intro l hl
    have h0 : l.length = 0 := by
      by_contra hne
      have h1 : 0 < l.length := Nat.pos_of_ne_zero hne
      have h2 := numBatches_succ l.length b hb h1
      omega
    have hnil : l = [] := List.length_eq_zero.mp h0
    subst hnil
    simp
  | succ n ih =>
    intro l hl
    have hpos : 0 < l.length := by
      by_contra hne
      push_neg at hne
      have h0 : l.length = 0 := by omega
      rw [h0, numBatches_zero b hb] at hl
      omega
    simp only [List.range_succ_eq_map, List.map_cons, List.map_map, List.flatten_cons,
      Nat.zero_mul, List.drop_zero]
    have hshift : (List.range n).map
          ((fun i => List.range' (i * b) ((l.drop (i * b)).take b).length) ∘ Nat.succ) =
        (List.range n).map (fun i =>
          List.map (fun x => b + x)
            (List.range' (i * b) (((l.drop b).drop (i * b)).take b).length)) := by
      apply List.map_congr_left
      intro i _
      show List.range' (Nat.succ i * b) ((l.drop (Nat.succ i * b)).take b).length =
        List.map (fun x => b + x)
          (List.range' (i * b) (((l.drop b).drop (i * b)).take b).length)
      rw [List.map_add_range', List.drop_drop, Nat.succ_mul, Nat.add_comm (i * b) b]
    rw [hshift, flatten_map_map,
      ih (l.drop b) (by rw [List.length_drop]; have := numBatches_succ l.length b hb hpos; omega)]
    simp only [List.length_take, List.length_drop, List.range_eq_range']
    rw [List.map_add_range']
    rcases le_or_lt b l.length with hbl | hbl
    · have h1 : b ⊓ l.length = b := by omega
      have h2 : b + 0 = 0 + 1 * b := by omega
      rw [h1, h2, List.range'_append]
      congr 1
      omega
    · have h1 : b ⊓ l.length = l.length := by omega
      have h2 : l.length - b = 0 := by omega
      rw [h1, h2]
      simp

/-- The points of one batch carry the consecutive ids starting at the
batch offset. -/
lemma mkPoints_ids (batch : List Article) : ∀ (start : Nat) (embs : List Vec),
    (mkPoints start batch embs).map Point.id = List.range' start batch.length := by
  induction batch with
  | nil =>
    intro start embs
    simp [mkPoints]
  | cons a rest ih =>
    intro start embs
    simp [mkPoints, List.range'_succ, ih]

/-- When the embedding list has one vector per article, the points of a
batch carry exactly those vectors, in order. -/
lemma mkPoints_vectors (batch : List Article) : ∀ (start : Nat) (embs : List Vec),
    embs.length = batch.length → (mkPoints start batch embs).map Point.vector = embs := by
  induction batch with
  | nil =>
    intro start embs h
    rw [List.length_eq_zero.mp h]
    simp [mkPoints]
  | cons a rest ih =>
    intro start embs h
    cases embs with
    | nil => simp at h
    | cons v vs =>
      simp only [mkPoints, List.map_cons, List.getD_cons_zero, List.drop_succ_cons,
        List.drop_zero]
      rw [ih (start + 1) vs (by simpa using h)]

/-- When every upsert acknowledges, the ingestion loop succeeds and its
log holds one entry per batch index, in order. -/
lemma ingestLoop_ok (env : IngestEnv) (articles : List Article) (b : Nat)
    (hup : ∀ i pts, env.upsert i pts = Except.ok ()) :
    ∀ (n i : Nat),
      ingestLoop env articles b n i =
        (Except.ok (), (List.range' i n).map (fun k =>
          (((articles.drop (k * b)).take b).map Article.fullText,
           mkPoints (k * b) ((articles.drop (k * b)).take b)
             (getJinaBatchEmbeddings env.apiKey (env.provider k)
               (((articles.drop (k * b)).take b).map Article.fullText))))) := by
  intro n
  induction n with
  | zero =>
    intro i
    simp [ingestLoop]
  | succ n ih =>
    intro i
    simp only [ingestLoop, hup, List.range'_succ, List.map_cons]
    rw [ih (i + 1)]

/-- If the upserts before batch `j` acknowledge and the upsert of batch
`j` fails, the loop covering batch `j` aborts with that error. -/
lemma ingestLoop_abort (env : IngestEnv) (articles : List Article) (b : Nat)
    (j : Nat) (e : Err)
    (hok : ∀ i pts, i < j → env.upsert i pts = Except.ok ())
    (herr : ∀ pts, env.upsert j pts = Except.error e) :
    ∀ (n i : Nat), i ≤ j → j < i + n → (ingestLoop env articles b n i).1 = Except.error e := by
  intro n
  induction n with
  | zero =>
    intro i h1 h2
    omega
  | succ n ih =>
    intro i h1 h2
    rcases eq_or_lt_of_le h1 with heq | hlt
    · subst heq
      simp [ingestLoop, herr]
    · have hcur : env.upsert i (mkPoints (i * b) ((articles.drop (i * b)).take b)
          (getJinaBatchEmbeddings env.apiKey (env.provider i)
            (((articles.drop (i * b)).take b).map Article.fullText))) = Except.ok () :=
        hok _ _ hlt
      simp only [ingestLoop, hcur]
      exact ih (i + 1) hlt (by omega)

/-- C4: over any article sequence and positive batch size `b`, a fully
acknowledged ingestion run issues exactly `ceil(N/b)` batched embedding
calls whose texts concatenate to the articles' full texts in input order,
and assigns the indexed points the ids `0 .. N-1` in order — each id equal
to the article's absolute position, no id used twice. -/
theorem claim_C4_ingestion_batches_and_ids
    (env : IngestEnv) (articles : List Article) (b : Nat) (hb : 0 < b)
    (hup : ∀ i pts, env.upsert i pts = Except.ok ()) :
    (createArticleEmbeddings env articles b).1 = Except.ok articles.length ∧
    (createArticleEmbeddings env articles b).2.length = (articles.length + b - 1) / b ∧
    ((createArticleEmbeddings env articles b).2.map Prod.fst).flatten =
      articles.map Article.fullText ∧
    ((createArticleEmbeddings env articles b).2.map Prod.snd).flatten.map Point.id =
      List.range articles.length ∧
    (((createArticleEmbeddings env articles b).2.map Prod.snd).flatten.map Point.id).Nodup := by
  have hloop := ingestLoop_ok env articles b hup (numBatches articles.length b) 0
  have hids : ((createArticleEmbeddings env articles b).2.map Prod.snd).flatten.map Point.id =
      List.range articles.length := by
    simp only [createArticleEmbeddings, hloop, List.map_map, Function.comp_def]
    rw [List.map_flatten]
    simp only [List.map_map, Function.comp_def, mkPoints_ids]
    rw [← List.range_eq_range']
    exact chunk_ids_flatten b hb _ articles rfl
  refine ⟨?_, ?_, ?_, hids, hids ▸ List.nodup_range _⟩
  · simp only [createArticleEmbeddings, hloop]
    rfl
  · simp only [createArticleEmbeddings, hloop]
    rw [List.length_map, List.length_range']
    rfl
  · simp only [createArticleEmbeddings, hloop, List.map_map, Function.comp_def]
    rw [flatten_map_map, ← List.range_eq_range',
      chunks_flatten b hb (numBatches articles.length b) articles rfl]

/-- C4 (witness): 3 articles with batch size 2 yield 2 embedding calls and
points with ids 0, 1, 2 (end-to-end scenario 1 of the specification). -/
theorem claim_C4_witness :
    (createArticleEmbeddings
        ⟨none, fun _ _ => Except.error "jina", fun _ _ => Except.ok ()⟩
        [sampleArticle "1", sampleArticle "2", sampleArticle "3"] 2).1 =
      Except.ok 3 ∧
    (createArticleEmbeddings
        ⟨none, fun _ _ => Except.error "jina", fun _ _ => Except.ok ()⟩
        [sampleArticle "1", sampleArticle "2", sampleArticle "3"] 2).2.length = 2 ∧
    ((createArticleEmbeddings
        ⟨none, fun _ _ => Except.error "jina", fun _ _ => Except.ok ()⟩
        [sampleArticle "1", sampleArticle "2", sampleArticle "3"] 2).2.map Prod.fst).flatten =
      [sampleArticle "1", sampleArticle "2", sampleArticle "3"].map Article.fullText ∧
    ((createArticleEmbeddings
        ⟨none, fun _ _ => Except.error "jina", fun _ _ => Except.ok ()⟩
        [sampleArticle "1", sampleArticle "2", sampleArticle "3"] 2).2.map
        Prod.snd).flatten.map Point.id = List.range 3 ∧
    (((createArticleEmbeddings
        ⟨none, fun _ _ => Except.error "jina", fun _ _ => Except.ok ()⟩
        [sampleArticle "1", sampleArticle "2", sampleArticle "3"] 2).2.map
        Prod.snd).flatten.map Point.id).Nodup :=
  claim_C4_ingestion_batches_and_ids
    ⟨none, fun _ _ => Except.error "jina", fun _ _ => Except.ok ()⟩
    [sampleArticle "1", sampleArticle "2", sampleArticle "3"] 2
    (by decide) (fun _ _ => rfl)

/-- C5: during ingestion an embedding-provider failure never aborts the
run — whatever the provider oracle does, a fully acknowledged run still
succeeds over all batches, and with no credential configured every
upserted point carries the deterministic local fallback vector of its
text; whereas if the vector-index upsert of any batch `j` fails (the
earlier ones acknowledging), the whole run fails with that error
propagated to the caller. -/
theorem claim_C5_embed_fallback_upsert_fatal
    (env : IngestEnv) (articles : List Article) (b : Nat) (hb : 0 < b) :
    ((∀ i pts, env.upsert i pts = Except.ok ()) →
       (createArticleEmbeddings env articles b).1 = Except.ok articles.length ∧
       (env.apiKey = none →
         ∀ entry ∈ (createArticleEmbeddings env articles b).2,
           entry.2.map Point.vector = entry.1.map createSimpleEmbedding)) ∧
    (∀ j e, j < numBatches articles.length b →
       (∀ i pts, i < j → env.upsert i pts = Except.ok ()) →
       (∀ pts, env.upsert j pts = Except.error e) →
       (createArticleEmbeddings env articles b).1 = Except.error e) := by
  constructor
  · intro hup
    have hloop := ingestLoop_ok env articles b hup (numBatches articles.length b) 0
    constructor
    · simp only [createArticleEmbeddings, hloop]
      rfl
    · intro hkey entry hentry
      simp only [createArticleEmbeddings, hloop] at hentry
      obtain ⟨k, hk, rfl⟩ := List.mem_map.mp hentry
      simp only [hkey]
      simp only [getJinaBatchEmbeddings]
      exact mkPoints_vectors _ _ _ (by simp)
  · intro j e hj hok herr
    have habort := ingestLoop_abort env articles b j e hok herr
      (numBatches articles.length b) 0 (by omega) (by omega)
    simp only [createArticleEmbeddings]
    rw [habort]
    rfl

/-- C5 (witness): with no credential every batch falls back locally and a
fully acknowledged 2-batch run succeeds; a failing first upsert makes the
same run fail with the index error. -/
theorem claim_C5_witness :
    ((createArticleEmbeddings
        ⟨none, fun _ _ => Except.error "jina", fun _ _ => Except.ok ()⟩
        [sampleArticle "1", sampleArticle "2", sampleArticle "3"] 2).1 = Except.ok 3 ∧
     ((⟨none, fun _ _ => Except.error "jina", fun _ _ => Except.ok ()⟩ : IngestEnv).apiKey = none →
       ∀ entry ∈ (createArticleEmbeddings
          ⟨none, fun _ _ => Except.error "jina", fun _ _ => Except.ok ()⟩
          [sampleArticle "1", sampleArticle "2", sampleArticle "3"] 2).2,
         entry.2.map Point.vector = entry.1.map createSimpleEmbedding)) ∧
    (createArticleEmbeddings
        ⟨none, fun _ _ => Except.error "jina",
         fun i _ => if i = 0 then Except.error "qdrant" else Except.ok ()⟩
        [sampleArticle "1", sampleArticle "2", sampleArticle "3"] 2).1 =
      Except.error "qdrant" :=
  ⟨(claim_C5_embed_fallback_upsert_fatal
      ⟨none, fun _ _ => Except.error "jina", fun _ _ => Except.ok ()⟩
      [sampleArticle "1", sampleArticle "2", sampleArticle "3"] 2 (by decide)).1
      (fun _ _ => rfl),
   (claim_C5_embed_fallback_upsert_fatal
      ⟨none, fun _ _ => Except.error "jina",
       fun i _ => if i = 0 then Except.error "qdrant" else Except.ok ()⟩
      [sampleArticle "1", sampleArticle "2", sampleArticle "3"] 2 (by decide)).2
      0 "qdrant" (by decide) (fun i pts h => absurd h (Nat.not_lt_zero i)) (fun _ => rfl)⟩
